import Mathlib

/-!
Verification of the Paster paste engine (src/src-tauri/src/commands.rs)
against its design specification.

Shallow embedding conventions:
* UTF-16 code units and Win32 integer fields are `Nat`; the u32 arithmetic
  of the delay computation is taken modulo 2^32 where overflow matters.
* The Tauri-managed `Mutex<PasteState>` becomes explicit state passing.
* The `is_pasting : AtomicBool` can be cleared by a concurrent `paste` call
  while the playback loop sleeps.  The value the loop reads at each
  per-character check is supplied by a `cancel : Option Nat` schedule:
  `some k` means a concurrent cancel is observed at every check from
  character index `k` on, `none` means no concurrent cancel ever arrives.
* The OS clipboard is an environment value: four success flags for the
  open / data / unlock / close Win32 calls and the raw zero-terminated
  UTF-16 memory; `paste` itself receives the resulting
  `Except String (List Nat)` so that claims can quantify over both outcomes.
* `SendInput` key events are recorded as a list of `KeybdInput` values;
  `rand::random::<u32>()` becomes a caller-supplied stream `randoms : Nat → Nat`.
-/

set_option autoImplicit false

/-- Hotkey configuration (struct `HotkeyConfig` in commands.rs). -/
structure HotkeyConfig where
  alt : Bool
  ctrl : Bool
  shift : Bool
  left_ctrl : Bool
  right_ctrl : Bool
  key : String
  intercept_ctrl_v : Bool
deriving Repr, DecidableEq

/-- Source `impl Default for HotkeyConfig`: Alt+Ctrl+V, not intercepting. -/
def HotkeyConfig.default : HotkeyConfig :=
  { alt := true
    ctrl := true
    shift := false
    left_ctrl := false
    right_ctrl := false
    key := "V"
    intercept_ctrl_v := false }

/-- Source `HotkeyConfig::to_tauri_accelerator`: the Tauri accelerator string.
Mirrors the source's sequence of `parts.push` calls on a `Vec<String>`. -/
def HotkeyConfig.to_tauri_accelerator (c : HotkeyConfig) : String :=
  if c.intercept_ctrl_v then "Control+V"
  else
    let parts : List String := []
    let parts := if c.alt then parts ++ ["Alt"] else parts
    let parts :=
      if c.ctrl then parts ++ ["Control"]
      else if c.left_ctrl then parts ++ ["ControlLeft"]
      else if c.right_ctrl then parts ++ ["ControlRight"]
      else parts
    let parts := if c.shift then parts ++ ["Shift"] else parts
    let parts := parts ++ [c.key]
    String.intercalate "+" parts

/-- Source `HotkeyConfig::get_description`: human-readable description. -/
def HotkeyConfig.get_description (c : HotkeyConfig) : String :=
  if c.intercept_ctrl_v then "系统Ctrl+V (已被劫持)"
  else
    let parts : List String := []
    let parts := if c.alt then parts ++ ["Alt"] else parts
    let parts :=
      if c.ctrl then parts ++ ["Ctrl"]
      else if c.left_ctrl then parts ++ ["左Ctrl"]
      else if c.right_ctrl then parts ++ ["右Ctrl"]
      else parts
    let parts := if c.shift then parts ++ ["Shift"] else parts
    let parts := parts ++ [c.key]
    String.intercalate "+" parts

/-- Spec-side rendering of `to_accelerator` (refinement target), written
from §4.3 of the spec: if intercepting, the fixed "Control+V"; otherwise the
tokens Alt, then exactly one Ctrl-variant with first-match-wins precedence
plain/left/right, then Shift, then the key, joined with "+". -/
def HotkeyConfig.to_accelerator_spec (c : HotkeyConfig) : String :=
  if c.intercept_ctrl_v then "Control+V"
  else
    String.intercalate "+"
      ((if c.alt then ["Alt"] else []) ++
       (if c.ctrl then ["Control"]
        else if c.left_ctrl then ["ControlLeft"]
        else if c.right_ctrl then ["ControlRight"]
        else []) ++
       (if c.shift then ["Shift"] else []) ++
       [c.key])

/-- Program state (struct `PasteState` in commands.rs).  The
`is_pasting : AtomicBool` is a plain `Bool` here; concurrent clears are
modelled by the cancel schedule fed to `paste`. -/
structure PasteState where
  is_paused : Bool
  shortcut : HotkeyConfig
  is_pasting : Bool
deriving Repr, DecidableEq

/-- Source `PasteState::new()`. -/
def PasteState.new : PasteState :=
  { is_paused := false
    shortcut := HotkeyConfig.default
    is_pasting := false }

/-- The unit-copying loop of `get_clipboard`: reads UTF-16 units until the
terminating zero, skipping every carriage-return unit (value 13). -/
def readUnits : List Nat → List Nat
  | [] => []
  | u :: rest =>
    if u = 0 then []
    else if u = 13 then readUnits rest
    else u :: readUnits rest

/-- Source `get_clipboard`: opens the clipboard, fetches the `CF_UNICODETEXT`
handle, copies units via `readUnits`, then unlocks and closes.  The four
Bool arguments are the success/failure of the corresponding Win32 calls,
`mem` is the zero-terminated UTF-16 memory behind the handle. -/
def get_clipboard (openOk dataOk unlockOk closeOk : Bool) (mem : List Nat) :
    Except String (List Nat) :=
  if !openOk then .error "打开剪切板错误"
  else if !dataOk then .error "获取剪切板数据错误"
  else
    let result := readUnits mem
    if !unlockOk then .error "解除剪切板锁定失败"
    else if !closeOk then .error "关闭剪切板失败"
    else .ok result

/-- Win32 `VK_RETURN` virtual-key code. -/
def VK_RETURN : Nat := 13

/-- Win32 `KEYEVENTF_KEYUP` flag bit. -/
def KEYEVENTF_KEYUP : Nat := 2

/-- Win32 `KEYEVENTF_UNICODE` flag bit. -/
def KEYEVENTF_UNICODE : Nat := 4

/-- The fields of a Win32 `KEYBDINPUT` that the source sets (time and
dwExtraInfo are always 0 and omitted). -/
structure KeybdInput where
  wVk : Nat
  wScan : Nat
  dwFlags : Nat
deriving Repr, DecidableEq

/-- The pair of `SendInput` events the playback loop emits for one code
unit: a real Enter key-down/key-up for a newline unit, a Unicode-flagged
key-down/key-up carrying the unit as scan data otherwise. -/
def emitUnit (ch : Nat) : List KeybdInput :=
  if ch = 10 then
    [{ wVk := VK_RETURN, wScan := 0, dwFlags := 0 },
     { wVk := VK_RETURN, wScan := 0, dwFlags := KEYEVENTF_KEYUP }]
  else
    [{ wVk := 0, wScan := ch, dwFlags := KEYEVENTF_UNICODE },
     { wVk := 0, wScan := ch, dwFlags := KEYEVENTF_UNICODE ||| KEYEVENTF_KEYUP }]

/-- Source `let delay = stand + random % float;` in u32 arithmetic (wrapping on
overflow, as in a release build). -/
def compute_delay (stand float random : Nat) : Nat :=
  (stand + random % float) % 2 ^ 32

/-- The value the playback loop reads from `is_pasting` at the check before
character index `i`, under cancel schedule `cancel`: `some k` means a
concurrent `paste` call cleared the flag before check `k` (and it stays
cleared), `none` means no concurrent cancel. -/
def flagAt (cancel : Option Nat) (i : Nat) : Bool :=
  match cancel with
  | none => true
  | some k => decide (i < k)

/-- The per-character playback loop of `paste` from character index `i` on:
before each character it checks `is_pasting` (via `flagAt`) and stops if
cleared; otherwise it emits the events for the character and computes the
jittered delay.  Returns the emitted events and the computed delays. -/
def playLoop (stand float : Nat) (randoms : Nat → Nat) :
    List Nat → Option Nat → Nat → List KeybdInput × List Nat
  | [], _, _ => ([], [])
  | ch :: rest, cancel, i =>
    if flagAt cancel i then
      let r := playLoop stand float randoms rest cancel (i + 1)
      (emitUnit ch ++ r.1, compute_delay stand float (randoms i) :: r.2)
    else ([], [])

/-- Everything one `paste` invocation produces: its `Result`, the state it
leaves behind, the key events it sent and the delays it slept. -/
structure PasteOutcome where
  result : Except String Unit
  final : PasteState
  emitted : List KeybdInput
  delays : List Nat
deriving Repr

/-- The `paste` command.  Follows commands.rs step by step:
1. if `is_paused`, fail with "功能已暂停";
2. if `is_pasting`, clear it and return `Ok` (cancel request);
   otherwise set it;
3. read the clipboard (`clip` is the result of `get_clipboard`); on error
   the error propagates via `?` — note `is_pasting` is NOT cleared here;
4. run the per-character loop (which exits early, with the flag already
   cleared, when a concurrent cancel is observed);
5. on loop exit clear `is_pasting` and return `Ok`. -/
def paste (stand float : Nat) (st : PasteState) (clip : Except String (List Nat))
    (cancel : Option Nat) (randoms : Nat → Nat) : PasteOutcome :=
  if st.is_paused then
    { result := .error "功能已暂停", final := st, emitted := [], delays := [] }
  else if st.is_pasting then
    { result := .ok (), final := { st with is_pasting := false },
      emitted := [], delays := [] }
  else
    match clip with
    | .error e =>
      { result := .error e, final := { st with is_pasting := true },
        emitted := [], delays := [] }
    | .ok units =>
      let r := playLoop stand float randoms units cancel 0
      { result := .ok (), final := { st with is_pasting := false },
        emitted := r.1, delays := r.2 }

/-- The `toggle_pause` command: flips `is_paused`, returns the new value. -/
def toggle_pause (st : PasteState) : Bool × PasteState :=
  let st' := { st with is_paused := !st.is_paused }
  (st'.is_paused, st')

/-- The `update_shortcut` command.  `saveRes` is the outcome of
`save_shortcut_config` (logged and otherwise ignored by the source),
`registerRes` the outcome of `register_global_shortcut`. -/
def update_shortcut (config : HotkeyConfig) (st : PasteState)
    (saveRes registerRes : Except String Unit) : Except String String × PasteState :=
  if !(config.alt || config.ctrl || config.shift || config.left_ctrl || config.right_ctrl)
      && !config.intercept_ctrl_v then
    (.error "至少需要选择一个修饰键（Alt/Ctrl/Shift)", st)
  else
    let st1 := { st with shortcut := config }
    match saveRes with
    | _ =>
      match registerRes with
      | .error e => (.error (e ++ "。可能需要重启应用才能生效。"), st1)
      | .ok _ => (.ok config.get_description, st1)

/-! ## Helper lemmas -/

/-- With no concurrent cancel the loop emits the events of every unit. -/
theorem playLoop_none_emitted (stand float : Nat) (randoms : Nat → Nat)
    (units : List Nat) (i : Nat) :
    (playLoop stand float randoms units none i).1 = units.flatMap emitUnit := by
  induction units generalizing i with
  | nil => rfl
  | cons ch rest ih => simp [playLoop, flagAt, ih]

/-- With a cancel observed from check `k` on, the loop starting at index `i`
emits exactly the events of the first `k - i` units. -/
theorem playLoop_some_emitted (stand float : Nat) (randoms : Nat → Nat)
    (units : List Nat) (k i : Nat) :
    (playLoop stand float randoms units (some k) i).1 =
      (units.take (k - i)).flatMap emitUnit := by
  induction units generalizing i with
  | nil => simp [playLoop]
  | cons ch rest ih =>
    by_cases h : i < k
    · have hk : k - i = (k - (i + 1)) + 1 := by omega
      rw [hk]
      simp [playLoop, flagAt, h, ih]
    · have hk : k - i = 0 := by omega
      rw [hk]
      simp [playLoop, flagAt, h]

/-- Each unit produces at least one key event. -/
theorem emitUnit_ne_nil (ch : Nat) : emitUnit ch ≠ [] := by
  by_cases h : ch = 10 <;> simp [emitUnit, h]

/-- A nonempty unit list produces a nonempty event list. -/
theorem bind_emitUnit_ne_nil (units : List Nat) (h : units ≠ []) :
    units.flatMap emitUnit ≠ [] := by
  cases units with
  | nil => exact absurd rfl h
  | cons ch rest => simp [List.flatMap_cons, List.append_eq_nil, emitUnit_ne_nil]

/-- Every delay the loop records is `compute_delay` of some random draw. -/
theorem mem_playLoop_delays {stand float : Nat} {randoms : Nat → Nat}
    {units : List Nat} {cancel : Option Nat} {i d : Nat}
    (hd : d ∈ (playLoop stand float randoms units cancel i).2) :
    ∃ j, d = compute_delay stand float (randoms j) := by
  induction units generalizing i with
  | nil => simp [playLoop] at hd
  | cons ch rest ih =>
    by_cases h : flagAt cancel i
    · simp [playLoop, h] at hd
      rcases hd with h1 | h2
      · exact ⟨i, h1⟩
      · exact ih h2
    · simp [playLoop, h] at hd

/-- The copying loop of `get_clipboard` computed in one step: the units up
to the terminating zero, with every carriage return removed. -/
theorem readUnits_eq (mem : List Nat) :
    readUnits mem = (mem.takeWhile (fun u => u != 0)).filter (fun u => u != 13) := by
  induction mem with
  | nil => rfl
  | cons u rest ih =>
    by_cases h0 : u = 0
    · subst h0
      simp [readUnits]
    · by_cases h13 : u = 13
      · subst h13
        simp [readUnits, ih]
      · simp [readUnits, h0, h13, ih]

/-! ## Claims -/

/-- Claim C1 (counterexample): the claim says a failing clipboard read
clears `is_pasting`; on the code, starting idle and unpaused with the
clipboard read failing, `paste` leaves `is_pasting` set to `true`. -/
theorem C1_counterexample :
    ¬ ((paste 50 30 PasteState.new (.error "获取剪切板数据错误") none
          (fun _ => 0)).final.is_pasting = false) := by
  decide

/-- Claim C1 (amended): if the clipboard read inside `paste` fails, the
clipboard error propagates to the caller and no keystrokes (and no delays)
are produced, but `is_pasting` is left `true`, not cleared. -/
theorem C1_amended (stand float : Nat) (st : PasteState) (e : String)
    (cancel : Option Nat) (randoms : Nat → Nat)
    (hp : st.is_paused = false) (hf : st.is_pasting = false) :
    paste stand float st (.error e) cancel randoms =
      { result := .error e, final := { st with is_pasting := true },
        emitted := [], delays := [] } := by
  simp [paste, hp, hf]

/-- Claim C1 (witness for the amended theorem at a concrete input). -/
theorem C1_witness :
    paste 50 30 PasteState.new (.error "打开剪切板错误") none (fun _ => 0) =
      { result := .error "打开剪切板错误",
        final := { PasteState.new with is_pasting := true },
        emitted := [], delays := [] } :=
  C1_amended 50 30 PasteState.new "打开剪切板错误" none (fun _ => 0) rfl rfl

/-- Claim C3: with `is_paused = true`, `paste` fails immediately with the
Suspended error "功能已暂停", the state (in particular `is_pasting`) is
unchanged, no keystrokes and no delays are produced, and the outcome does
not depend on the clipboard (no clipboard access). -/
theorem C3_paused_suspends (stand float : Nat) (st : PasteState)
    (clip : Except String (List Nat)) (cancel : Option Nat) (randoms : Nat → Nat)
    (hp : st.is_paused = true) :
    paste stand float st clip cancel randoms =
      { result := .error "功能已暂停", final := st, emitted := [], delays := [] } := by
  simp [paste, hp]

/-- Claim C3 (witness at a concrete paused state and clipboard). -/
theorem C3_witness :
    paste 50 30 { PasteState.new with is_paused := true }
        (.ok [72, 105]) none (fun _ => 0) =
      { result := .error "功能已暂停",
        final := { PasteState.new with is_paused := true },
        emitted := [], delays := [] } :=
  C3_paused_suspends 50 30 { PasteState.new with is_paused := true }
    (.ok [72, 105]) none (fun _ => 0) rfl

/-- Claim C10: after `paste` returns a clipboard error, `is_pasting` is
left `true`, so the next `paste` call with `is_paused = false` returns
success immediately — independent of the clipboard, with no keystrokes and
no delays — merely resetting the flag (consumed as a cancel request). -/
theorem C10_error_then_next_call_swallowed (stand float stand2 float2 : Nat)
    (st : PasteState) (e : String) (cancel cancel2 : Option Nat)
    (randoms randoms2 : Nat → Nat) (clip2 : Except String (List Nat))
    (hp : st.is_paused = false) (hf : st.is_pasting = false) :
    (paste stand float st (.error e) cancel randoms).final.is_pasting = true ∧
    paste stand2 float2 (paste stand float st (.error e) cancel randoms).final
        clip2 cancel2 randoms2 =
      { result := .ok (),
        final := { (paste stand float st (.error e) cancel randoms).final with
                     is_pasting := false },
        emitted := [], delays := [] } := by
  constructor
  · simp [paste, hp, hf]
  · simp [paste, hp, hf]

/-- Claim C10 (witness at a concrete state and clipboard error). -/
theorem C10_witness :
    (paste 50 30 PasteState.new (.error "获取剪切板数据错误") none
        (fun _ => 0)).final.is_pasting = true ∧
    paste 50 30 (paste 50 30 PasteState.new (.error "获取剪切板数据错误") none
          (fun _ => 0)).final (.ok [72, 105]) none (fun _ => 0) =
      { result := .ok (),
        final := { (paste 50 30 PasteState.new (.error "获取剪切板数据错误") none
                      (fun _ => 0)).final with is_pasting := false },
        emitted := [], delays := [] } :=
  C10_error_then_next_call_swallowed 50 30 50 30 PasteState.new
    "获取剪切板数据错误" none none (fun _ => 0) (fun _ => 0) (.ok [72, 105]) rfl rfl

/-- Claim C8: `toggle_pause` flips `is_paused`, returns the new value, and
is its own inverse: two consecutive calls restore the original state. -/
theorem C8_toggle_pause_involutive (st : PasteState) :
    (toggle_pause st).1 = (toggle_pause st).2.is_paused ∧
    (toggle_pause st).2.is_paused = !st.is_paused ∧
    (toggle_pause (toggle_pause st).2).2.is_paused = st.is_paused ∧
    (toggle_pause (toggle_pause st).2).2 = st := by
  simp [toggle_pause]

/-- Claim C4: a configuration with no modifier selected and
`intercept_ctrl_v = false` is rejected by `update_shortcut` with the
validation error, before any mutation: the stored state is returned
unchanged, whatever the save and register outcomes would have been. -/
theorem C4_invalid_config_rejected (config : HotkeyConfig) (st : PasteState)
    (saveRes registerRes : Except String Unit)
    (ha : config.alt = false) (hc : config.ctrl = false)
    (hs : config.shift = false) (hl : config.left_ctrl = false)
    (hr : config.right_ctrl = false) (hi : config.intercept_ctrl_v = false) :
    update_shortcut config st saveRes registerRes =
      (.error "至少需要选择一个修饰键（Alt/Ctrl/Shift)", st) := by
  simp [update_shortcut, ha, hc, hs, hl, hr, hi]

/-- Claim C4 (witness at a concrete all-false configuration). -/
theorem C4_witness :
    update_shortcut
        { alt := false, ctrl := false, shift := false, left_ctrl := false,
          right_ctrl := false, key := "V", intercept_ctrl_v := false }
        PasteState.new (.ok ()) (.ok ()) =
      (.error "至少需要选择一个修饰键（Alt/Ctrl/Shift)", PasteState.new) :=
  C4_invalid_config_rejected
    { alt := false, ctrl := false, shift := false, left_ctrl := false,
      right_ctrl := false, key := "V", intercept_ctrl_v := false }
    PasteState.new (.ok ()) (.ok ()) rfl rfl rfl rfl rfl rfl

/-- Claim C5: `to_tauri_accelerator` returns "Control+V" unconditionally
whenever `intercept_ctrl_v` is true; otherwise it refines the spec's
rendering (tokens in the fixed order Alt, one Ctrl-variant with
first-match-wins precedence plain/left/right, Shift, then the key, joined
with "+"); in particular the default Alt+Ctrl+V configuration yields
"Alt+Control+V". -/
theorem C5_accelerator (c : HotkeyConfig) :
    (c.intercept_ctrl_v = true → c.to_tauri_accelerator = "Control+V") ∧
    c.to_tauri_accelerator = c.to_accelerator_spec ∧
    HotkeyConfig.default.to_tauri_accelerator = "Alt+Control+V" := by
  refine ⟨?_, ?_, by decide⟩
  · intro h
    simp [HotkeyConfig.to_tauri_accelerator, h]
  · rcases c with ⟨alt, ctrl, shift, lc, rc, key, ic⟩
    cases alt <;> cases ctrl <;> cases shift <;> cases lc <;> cases rc <;> cases ic <;>
      simp [HotkeyConfig.to_tauri_accelerator, HotkeyConfig.to_accelerator_spec]

/-- Claim C5 (witness: the intercept branch at a configuration whose other
fields disagree with Ctrl+V, and the default configuration). -/
theorem C5_witness :
    ({ alt := true, ctrl := false, shift := true, left_ctrl := true,
       right_ctrl := false, key := "K",
       intercept_ctrl_v := true } : HotkeyConfig).to_tauri_accelerator
      = "Control+V" ∧
    HotkeyConfig.default.to_tauri_accelerator = "Alt+Control+V" :=
  ⟨(C5_accelerator { alt := true, ctrl := false, shift := true, left_ctrl := true, right_ctrl := false, key := "K", intercept_ctrl_v := true }).1 rfl,
   (C5_accelerator HotkeyConfig.default).2.2⟩

/-- Claim C6: a successful clipboard read returns exactly the code units up
to the terminating zero with every carriage-return unit (13) removed, in
order; consequently no carriage return is ever returned, and for a
clipboard holding a\r\nb (zero-terminated) the result contains the newline
unit 10 but not 13. -/
theorem C6_clipboard_strips_cr (mem : List Nat) :
    get_clipboard true true true true mem =
      .ok ((mem.takeWhile (fun u => u != 0)).filter (fun u => u != 13)) ∧
    (13 : Nat) ∉ readUnits mem ∧
    (get_clipboard true true true true [97, 13, 10, 98, 0] = .ok [97, 10, 98] ∧
     (10 : Nat) ∈ readUnits [97, 13, 10, 98, 0] ∧
     (13 : Nat) ∉ readUnits [97, 13, 10, 98, 0]) := by
  refine ⟨?_, ?_, by rfl, by decide, by decide⟩
  · simp [get_clipboard, readUnits_eq]
  · rw [readUnits_eq]
    intro hmem
    have := List.of_mem_filter hmem
    simp at this

/-- Claim C7: the playback loop (run to completion, no concurrent cancel)
emits exactly the per-unit event pairs, and for each unit: a newline unit
(10) produces a key-down then key-up of the real `VK_RETURN` virtual key
with no Unicode flag, while any other unit produces a Unicode-flagged
key-down then key-up carrying the unit as scan data. -/
theorem C7_keystroke_synthesis (stand float : Nat) (randoms : Nat → Nat)
    (units : List Nat) (ch : Nat) :
    (playLoop stand float randoms units none 0).1 = units.flatMap emitUnit ∧
    (ch = 10 → emitUnit ch =
      [{ wVk := VK_RETURN, wScan := 0, dwFlags := 0 },
       { wVk := VK_RETURN, wScan := 0, dwFlags := KEYEVENTF_KEYUP }]) ∧
    (ch ≠ 10 → emitUnit ch =
      [{ wVk := 0, wScan := ch, dwFlags := KEYEVENTF_UNICODE },
       { wVk := 0, wScan := ch,
         dwFlags := KEYEVENTF_UNICODE ||| KEYEVENTF_KEYUP }]) := by
  refine ⟨playLoop_none_emitted stand float randoms units 0, ?_, ?_⟩
  · intro h
    simp [emitUnit, h]
  · intro h
    simp [emitUnit, h]

/-- Claim C7 (witness: the loop on "H\ni" and both unit cases). -/
theorem C7_witness :
    (playLoop 50 30 (fun _ => 0) [72, 10, 105] none 0).1 =
      [72, 10, 105].flatMap emitUnit ∧
    emitUnit 10 =
      [{ wVk := VK_RETURN, wScan := 0, dwFlags := 0 },
       { wVk := VK_RETURN, wScan := 0, dwFlags := KEYEVENTF_KEYUP }] ∧
    emitUnit 72 =
      [{ wVk := 0, wScan := 72, dwFlags := KEYEVENTF_UNICODE },
       { wVk := 0, wScan := 72,
         dwFlags := KEYEVENTF_UNICODE ||| KEYEVENTF_KEYUP }] :=
  ⟨(C7_keystroke_synthesis 50 30 (fun _ => 0) [72, 10, 105] 10).1,
   (C7_keystroke_synthesis 50 30 (fun _ => 0) [72, 10, 105] 10).2.1 rfl,
   (C7_keystroke_synthesis 50 30 (fun _ => 0) [72, 10, 105] 72).2.2 (by decide)⟩

/-- Claim C2: a `paste` call arriving with `is_pasting = true` and
`is_paused = false` is consumed as a cancel request: it clears `is_pasting`
and returns success immediately, independent of the clipboard (no read) and
with no keystrokes or delays, so no second playback starts; and an
in-flight playback (started from the idle state) that observes the cancel
at its per-character check `k`, with `k` before the end of the units,
emits a strict prefix of the events the full clipboard content produces. -/
theorem C2_second_call_cancels (stand float : Nat) (st : PasteState)
    (clip : Except String (List Nat)) (cancel : Option Nat) (randoms : Nat → Nat)
    (units : List Nat) (k : Nat)
    (hp : st.is_paused = false) (hf : st.is_pasting = true)
    (hk : k < units.length) :
    paste stand float st clip cancel randoms =
      { result := .ok (), final := { st with is_pasting := false },
        emitted := [], delays := [] } ∧
    ∃ rest, rest ≠ [] ∧
      (paste stand float { st with is_pasting := false } (.ok units) (some k)
          randoms).emitted ++ rest =
      (paste stand float { st with is_pasting := false } (.ok units) none
          randoms).emitted := by
  constructor
  · simp [paste, hp, hf]
  · refine ⟨(units.drop k).flatMap emitUnit, ?_, ?_⟩
    · apply bind_emitUnit_ne_nil
      intro hnil
      have hlen := congrArg List.length hnil
      simp at hlen
      omega
    · simp only [paste, hp]
      simp [playLoop_some_emitted, playLoop_none_emitted,
        ← List.flatMap_append, List.take_append_drop]

/-- Claim C2 (witness: cancel call on a pasting state, and the in-flight
run over two units cancelled at check 1 emitting a strict prefix). -/
theorem C2_witness :
    paste 50 30 { PasteState.new with is_pasting := true } (.ok [72, 10]) none
        (fun _ => 0) =
      { result := .ok (),
        final := { { PasteState.new with is_pasting := true } with
                     is_pasting := false },
        emitted := [], delays := [] } ∧
    ∃ rest, rest ≠ [] ∧
      (paste 50 30 { { PasteState.new with is_pasting := true } with
            is_pasting := false } (.ok [72, 10]) (some 1)
          (fun _ => 0)).emitted ++ rest =
      (paste 50 30 { { PasteState.new with is_pasting := true } with
            is_pasting := false } (.ok [72, 10]) none (fun _ => 0)).emitted :=
  C2_second_call_cancels 50 30 { PasteState.new with is_pasting := true }
    (.ok [72, 10]) none (fun _ => 0) [72, 10] 1 rfl rfl (by decide)

/-- Claim C9 (counterexample): with base_delay = 4294967295 = 2^32 - 1 and
jitter_span = 30 > 0 the u32 addition wraps: the one delay the loop
computes is 19, which is below base_delay, outside [base, base+span-1]. -/
theorem C9_counterexample :
    ∃ d ∈ (playLoop 4294967295 30 (fun _ => 20) [65] none 0).2,
      d < 4294967295 := by
  exact ⟨19, by decide, by decide⟩

/-- Claim C9 (amended): when jitter_span > 0 and base_delay + jitter_span
does not exceed 2^32 (no u32 overflow), every delay the playback loop
computes equals base_delay + (random mod jitter_span) and lies in
[base_delay, base_delay + jitter_span - 1]. -/
theorem C9_amended (stand float : Nat) (randoms : Nat → Nat) (units : List Nat)
    (cancel : Option Nat) (i d : Nat)
    (hf : 0 < float) (hov : stand + float ≤ 2 ^ 32)
    (hd : d ∈ (playLoop stand float randoms units cancel i).2) :
    (∃ r, d = stand + r % float) ∧ stand ≤ d ∧ d ≤ stand + float - 1 := by
  obtain ⟨j, hj⟩ := mem_playLoop_delays hd
  have hmod : randoms j % float < float := Nat.mod_lt _ hf
  have heq : d = stand + randoms j % float := by
    rw [hj, compute_delay, Nat.mod_eq_of_lt (by omega)]
  exact ⟨⟨randoms j, heq⟩, by omega, by omega⟩

/-- Claim C9 (witness for the amended theorem: base 50, span 30, random 7,
delay 57 lies in [50, 79]). -/
theorem C9_witness :
    (∃ r, 57 = 50 + r % 30) ∧ 50 ≤ 57 ∧ 57 ≤ 50 + 30 - 1 :=
  C9_amended 50 30 (fun _ => 7) [65] none 0 57 (by decide) (by decide) (by decide)
